import Mathlib

/-!
Verification of the agent resource-state subsystem
(`master/internal/resourcemanagers/agent/agent_state.go`).

Modelling conventions: Go maps become association lists (iteration order of a
Go map is unspecified; the embedding fixes it to list order), `*cproto.ID`
pointers become `Option CID`, actor references become numbers, and the
relational store becomes explicit lists of snapshots.  Calls to `persist` are
counted instead of performed; eviction notifications (`ctx.Tell`) are returned
as an explicit signal list.
-/

namespace Agent

/-- Container id (`cproto.ID`, a string). -/
abbrev CID := String

/-- Association-list lookup, modelling a Go map read `m[k]`. -/
def alookup [DecidableEq α] : List (α × β) → α → Option β
  | [], _ => none
  | p :: rest, k => if p.1 = k then some p.2 else alookup rest k

/-- Association-list write, modelling a Go map write `m[k] = v`. -/
def aset [DecidableEq α] : List (α × β) → α → β → List (α × β)
  | [], k, v => [(k, v)]
  | p :: rest, k, v => if p.1 = k then (k, v) :: rest else p :: aset rest k v

/-- Association-list removal, modelling Go `delete(m, k)`. -/
def adel [DecidableEq α] : List (α × β) → α → List (α × β)
  | [], _ => []
  | p :: rest, k => if p.1 = k then adel rest k else p :: adel rest k

/-- Value update at key `k` when present, modelling a Go write through a
looked-up map pointer (`m[k].field = v`); an absent key is untouched. -/
def supd [DecidableEq α] (l : List (α × β)) (k : α) (f : β → β) : List (α × β) :=
  l.map (fun p => if p.1 = k then (p.1, f p.2) else p)

/-- Map over the values of an association list, keys unchanged. -/
def mapVals (g : β → β) (l : List (α × β)) : List (α × β) :=
  l.map (fun p => (p.1, g p.2))

/-- Keys are pairwise distinct — every list modelling a Go map satisfies
this, because Go map keys are unique. -/
def keysNodup (l : List (α × β)) : Prop := (l.map Prod.fst).Nodup

instance [DecidableEq α] (l : List (α × β)) : Decidable (keysNodup l) :=
  inferInstanceAs (Decidable (List.Nodup _))

/-- A compute device (`device.Device`). -/
structure Device where
  id : Int
  brand : String
  uuid : String
  dtype : String
deriving DecidableEq

/-- A container (`cproto.Container`); `state` is the `cproto.State` string
(zero value `""`, terminal value `"TERMINATED"`). -/
structure Container where
  id : CID
  state : String
  devices : List Device
deriving DecidableEq

/-- Administrative flags of one slot (`slotEnabled`). -/
structure SlotEnabled where
  deviceAdded : Bool
  agentEnabled : Bool
  userEnabled : Bool
  draining : Bool
deriving DecidableEq

/-- Effective enablement, `slotEnabled.enabled()`. -/
def SlotEnabled.enabled (s : SlotEnabled) : Bool :=
  s.agentEnabled && s.userEnabled

/-- Per-device bookkeeping (`slot`). -/
structure Slot where
  device : Device
  enabled : SlotEnabled
  containerID : Option CID
deriving DecidableEq

/-- Scheduler state for one agent (`AgentState`).  The actor handler is
reduced to the agent-id string it yields (`a.string()`); actor references
in `containerAllocation` are numbers. -/
structure AgentState where
  agentID : String
  devices : List (Device × Option CID)
  label : String
  resourcePoolName : String
  enabled : Bool
  draining : Bool
  uuid : String
  maxZeroSlotContainers : Int
  slotStates : List (Int × Slot)
  containerAllocation : List (CID × Nat)
  containerState : List (CID × Container)
deriving DecidableEq

/-- `NumUsedSlots`: devices with a non-nil owner. -/
def numUsedSlots (a : AgentState) : Int :=
  ((a.devices.filter (fun p => p.2.isSome)).length : Int)

/-- `NumSlots`. -/
def numSlots (a : AgentState) : Int :=
  if a.draining then numUsedSlots a
  else if !a.enabled then 0
  else (a.devices.length : Int)

/-- `NumEmptySlots`. -/
def numEmptySlots (a : AgentState) : Int :=
  if a.draining || !a.enabled then 0
  else numSlots a - numUsedSlots a

/-- `NumUsedZeroSlots`: containers whose device list is empty. -/
def numUsedZeroSlots (a : AgentState) : Int :=
  ((a.containerState.filter (fun q => q.2.devices.isEmpty)).length : Int)

/-- The device-collecting loop of `AllocateFreeDevices`: walk the `Devices`
map in order, gathering unowned devices, breaking once `slots` have been
gathered. -/
def collectFreeAux (slots : Int) : List Device → List (Device × Option CID) → List Device
  | acc, [] => acc
  | acc, p :: rest =>
    match p.2 with
    | some _ => if (acc.length : Int) = slots then acc else collectFreeAux slots acc rest
    | none =>
      if ((acc ++ [p.1]).length : Int) = slots then acc ++ [p.1]
      else collectFreeAux slots (acc ++ [p.1]) rest

/-- `AllocateFreeDevices`: registers the container, then claims `slots` free
devices, erroring when too few entries of `Devices` are unowned. -/
def allocateFreeDevices (a : AgentState) (slots : Int) (cid : CID) :
    AgentState × Except String (List Device) :=
  let a1 : AgentState := { a with containerState := aset a.containerState cid ⟨cid, "", []⟩ }
  if slots = 0 then (a1, .ok [])
  else
    let devs := collectFreeAux slots [] a1.devices
    if (devs.length : Int) ≠ slots then (a1, .error "not enough devices")
    else
      ({ a1 with
          devices := devs.foldl (fun m d => aset m d (some cid)) a1.devices,
          containerState := aset a1.containerState cid ⟨cid, "", devs⟩ },
        .ok devs)

/-- `DeallocateContainer`. -/
def deallocateContainer (a : AgentState) (id : CID) : AgentState :=
  { a with
      containerState := adel a.containerState id,
      devices := mapVals (fun v => if v = some id then none else v) a.devices }

/-- An eviction notification (`task.AllocationSignalWithReason` sent via
`ctx.Tell`); the target is the owner looked up in `containerAllocation`. -/
structure Signal where
  target : Option Nat
  signal : String
  reason : String
deriving DecidableEq

/-- `updateSlotDeviceView`: reconcile one slot's administrative flags into
the materialized `Devices` view, possibly emitting a kill signal. -/
def updateSlotDeviceView (a : AgentState) (deviceID : Int) : AgentState × List Signal :=
  match alookup a.slotStates deviceID with
  | none => (a, [])
  | some s =>
    if s.enabled.enabled && !s.enabled.deviceAdded then
      ({ a with
          slotStates := aset a.slotStates deviceID
            { s with enabled := { s.enabled with deviceAdded := true } },
          devices := aset a.devices s.device s.containerID }, [])
    else if !s.enabled.enabled then
      let a1 : AgentState :=
        if !s.enabled.draining && s.enabled.deviceAdded then
          { a with
              slotStates := aset a.slotStates deviceID
                { s with enabled := { s.enabled with deviceAdded := false } },
              devices := adel a.devices s.device }
        else a
      let sigs : List Signal :=
        if !s.enabled.draining then
          match s.containerID with
          | some c => [⟨alookup a.containerAllocation c, "kill", "slot disabled"⟩]
          | none => []
        else []
      (a1, sigs)
    else (a, [])

/-- Per-slot summary returned to the administrative API
(`model.SlotSummary`). -/
structure SlotSummary where
  summaryID : String
  device : Device
  enabled : Bool
  container : Option Container
  draining : Bool
deriving DecidableEq

/-- `getSlotSummary`.  The Go code assumes the slot exists; a missing slot
yields the zero summary here. -/
def getSlotSummary (a : AgentState) (deviceID : Int) : SlotSummary :=
  match alookup a.slotStates deviceID with
  | none => ⟨"", ⟨0, "", "", ""⟩, false, none, false⟩
  | some s =>
    ⟨toString s.device.id, s.device, s.enabled.enabled,
      (match s.containerID with
       | some c => alookup a.containerState c
       | none => none),
      s.enabled.draining⟩

/-- `PatchSlotState` message. -/
structure PatchSlotState where
  id : Int
  enabled : Option Bool
  drain : Option Bool

/-- `patchSlotStateInner`: apply the patch to an already looked-up slot,
reconcile, and summarise. -/
def patchSlotStateInner (a : AgentState) (msg : PatchSlotState) (s : Slot) :
    AgentState × List Signal × SlotSummary :=
  let s1 : Slot := match msg.enabled with
    | some e => { s with enabled := { s.enabled with userEnabled := e } }
    | none => s
  let s2 : Slot := match msg.drain with
    | some dr => { s1 with enabled := { s1.enabled with draining := dr } }
    | none => s1
  let a1 : AgentState := { a with slotStates := aset a.slotStates s2.device.id s2 }
  let av := updateSlotDeviceView a1 s2.device.id
  (av.1, av.2, getSlotSummary av.1 s2.device.id)

/-- `patchSlotState`: patching a non-existent slot id reports not-found. -/
def patchSlotState (a : AgentState) (msg : PatchSlotState) :
    AgentState × List Signal × Except String SlotSummary :=
  match alookup a.slotStates msg.id with
  | none =>
    (a, [], .error ("bad updateSlotDeviceView on device: " ++ toString msg.id ++
      " (" ++ a.agentID ++ "): not found"))
  | some s =>
    let r := patchSlotStateInner a msg s
    (r.1, r.2.1, .ok r.2.2)

/-- The per-device body of `startContainer` (`inner`), iterated over the
container's devices; mutations made before a failing device are kept, as in
the Go code. -/
def startLoop (c : Container) : List Device → AgentState → AgentState × Option String
  | [], a => (a, none)
  | d :: rest, a =>
    let wrap : String → String := fun e =>
      "bad startContainer on device: " ++ toString d.id ++ " (" ++ a.agentID ++ "): " ++ e
    match alookup a.slotStates d.id with
    | none => (a, some (wrap "can't find slot"))
    | some s =>
      if !s.enabled.enabled then (a, some (wrap "container allocated but slot is not enabled"))
      else if s.containerID.isSome then
        (a, some (wrap "container already allocated to slot"))
      else
        startLoop c rest
          { a with
              slotStates := aset a.slotStates d.id { s with containerID := some c.id },
              containerState := aset a.containerState c.id c }

/-- `startContainer`: validate-and-bind each target device in order; on
success also record the owning task actor. -/
def startContainer (a : AgentState) (c : Container) (taskActor : Nat) :
    AgentState × Except String Unit :=
  match startLoop c c.devices a with
  | (a1, some e) => (a1, .error e)
  | (a1, none) =>
    ({ a1 with containerAllocation := aset a1.containerAllocation c.id taskActor }, .ok ())

/-- One persisted slot entry (`SlotData`). -/
structure SlotData where
  device : Device
  userEnabled : Bool
  containerID : Option CID
deriving DecidableEq

/-- The durable projection of an agent (`AgentSnapshot`). -/
structure AgentSnapshot where
  agentID : String
  uuid : String
  resourcePoolName : String
  label : String
  userEnabled : Bool
  userDraining : Bool
  maxZeroSlotContainers : Int
  slots : List SlotData
  containers : List CID
deriving DecidableEq

/-- `snapshot()`. -/
def AgentState.snapshot (a : AgentState) : AgentSnapshot :=
  { agentID := a.agentID
    uuid := a.uuid
    resourcePoolName := a.resourcePoolName
    label := a.label
    userEnabled := a.enabled
    userDraining := a.draining
    maxZeroSlotContainers := a.maxZeroSlotContainers
    slots := a.slotStates.map (fun q =>
      ⟨q.2.device, q.2.enabled.userEnabled, q.2.containerID⟩)
    containers := a.containerState.map Prod.fst }

/-- `persist()` against the modelled store: upsert keyed by uuid and by
agent id (`ON CONFLICT ... DO UPDATE`). -/
def dbUpsert (db : List AgentSnapshot) (s : AgentSnapshot) : List AgentSnapshot :=
  if db.any (fun r => r.uuid == s.uuid || r.agentID == s.agentID) then
    db.map (fun r => if r.uuid == s.uuid || r.agentID == s.agentID then s else r)
  else db ++ [s]

/-- `uuid.Parse`, modelled as accepting every non-empty string (the
snapshots written by this subsystem always carry a well-formed uuid). -/
def parseUUID (s : String) : Option String :=
  if s.isEmpty then none else some s

/-- `newAgentStateFromSnapshot`, taking the container table in place of the
`ContainerSnapshot` query.  Note the restored per-slot flags are built from
the agent-level `UserEnabled`/`UserDraining`, not from the persisted
per-slot `UserEnabled`. -/
def newAgentStateFromSnapshot (snap : AgentSnapshot) (ctable : List (CID × Container)) :
    Except String AgentState :=
  match parseUUID snap.uuid with
  | none => .error "invalid UUID length"
  | some u =>
    let slotStates : List (Int × Slot) := snap.slots.foldl
      (fun m sd => aset m sd.device.id
        ⟨sd.device, ⟨true, snap.userEnabled, snap.userEnabled, snap.userDraining⟩,
          sd.containerID⟩) []
    let devices : List (Device × Option CID) := snap.slots.foldl
      (fun m sd => aset m sd.device sd.containerID) []
    let rows := if snap.containers.length > 0 then
        ctable.filter (fun p => snap.containers.contains p.1)
      else []
    let containerState : List (CID × Container) :=
      rows.foldl (fun m p => aset m p.1 p.2) []
    .ok { agentID := snap.agentID
          devices := devices
          label := snap.label
          resourcePoolName := snap.resourcePoolName
          enabled := snap.userEnabled
          draining := snap.userDraining
          uuid := u
          maxZeroSlotContainers := snap.maxZeroSlotContainers
          slotStates := slotStates
          containerAllocation := []
          containerState := containerState }

/-- The reconstruction loop of `retrieveAgentStates`: any failing snapshot
aborts the whole retrieval. -/
def retrieveLoop (ctable : List (CID × Container)) :
    List AgentSnapshot → Except String (List (String × AgentState))
  | [] => .ok []
  | snap :: rest =>
    match newAgentStateFromSnapshot snap ctable with
    | .error e => .error ("failed to recreate agent state " ++ snap.agentID ++ ": " ++ e)
    | .ok st =>
      match retrieveLoop ctable rest with
      | .error e => .error e
      | .ok m => .ok ((snap.agentID, st) :: m)

/-- `retrieveAgentStates`: load the snapshots of every reattach-enabled
resource pool and reconstruct each agent. -/
def retrieveAgentStates (rpNames : List String) (db : List AgentSnapshot)
    (ctable : List (CID × Container)) : Except String (List (String × AgentState)) :=
  if rpNames.isEmpty then .ok []
  else retrieveLoop ctable (db.filter (fun s => rpNames.contains s.resourcePoolName))

/-- `clearUnlessRecovered`: prune every reference to a container id the
reconnecting agent did not attest alive; the returned number counts the
`persist()` calls made (one when anything changed, else zero).  Each Go
`for` loop becomes a changed-flag plus a value transformation. -/
def clearUnlessRecovered (a : AgentState) (recovered : List CID) : AgentState × Nat :=
  let devGone : Device × Option CID → Bool := fun p => p.2.any (fun c => !recovered.contains c)
  let upd1 := a.devices.any devGone
  let devices1 := mapVals (fun v => if v.any (fun c => !recovered.contains c) then none else v)
    a.devices
  let slots1 := a.devices.foldl
    (fun sl p => if devGone p then supd sl p.1.id (fun s => { s with containerID := none }) else sl)
    a.slotStates
  let slotGone : Slot → Bool := fun s => s.containerID.any (fun c => !recovered.contains c)
  let upd2 := slots1.any (fun q => slotGone q.2)
  let slots2 := mapVals (fun s => if slotGone s then { s with containerID := none } else s) slots1
  let upd3 := a.containerState.any (fun q => !recovered.contains q.1)
  let cs2 := a.containerState.filter (fun q => recovered.contains q.1)
  let upd4 := a.containerAllocation.any (fun q => !recovered.contains q.1)
  let ca2 := a.containerAllocation.filter (fun q => recovered.contains q.1)
  let updated := upd1 || upd2 || upd3 || upd4
  ({ a with devices := devices1, slotStates := slots2,
            containerState := cs2, containerAllocation := ca2 },
    if updated then 1 else 0)

/-- True when the agent holds any reference to a container id outside
`recovered` — exactly the condition under which `clearUnlessRecovered`
mutates and persists. -/
def hasUnrecoveredRef (a : AgentState) (recovered : List CID) : Bool :=
  a.devices.any (fun p => p.2.any (fun c => !recovered.contains c)) ||
  a.slotStates.any (fun q => q.2.containerID.any (fun c => !recovered.contains c)) ||
  a.containerState.any (fun q => !recovered.contains q.1) ||
  a.containerAllocation.any (fun q => !recovered.contains q.1)

/-- The claimed cross-map ownership invariant: a device is owned by `c` in
the materialized view iff its slot is bound to `c` and `c` is a live
container. -/
def Inv (a : AgentState) : Prop :=
  ∀ d c, alookup a.devices d = some (some c) ↔
    ((alookup a.slotStates d.id).bind (fun s => s.containerID) = some c ∧
      (alookup a.containerState c).isSome = true)

/-- The unowned devices of the `Devices` map, in map order — the pool
`AllocateFreeDevices` draws from. -/
def freeList (l : List (Device × Option CID)) : List Device :=
  (l.filter (fun p => p.2.isNone)).map Prod.fst

/-- The `startContainer` per-device validation, as a test on the current
state: the slot exists, is effectively enabled, and is unowned. -/
def validTargetB (a : AgentState) (d : Device) : Bool :=
  (alookup a.slotStates d.id).any (fun s => s.enabled.enabled && s.containerID.isNone)

/-- The payload of a successful result, `none` for an error. -/
def okValue : Except ε α → Option α
  | .ok v => some v
  | .error _ => none

/-! Concrete agent states used as witnesses and counterexamples. -/

/-- A one-GPU device. -/
def dev1 : Device := ⟨1, "nvidia", "GPU-1", "cuda"⟩

/-- A second GPU device. -/
def dev2 : Device := ⟨2, "nvidia", "GPU-2", "cuda"⟩

/-- Fully-enabled, materialized slot flags. -/
def onFlags : SlotEnabled := ⟨true, true, true, false⟩

/-- An agent with no devices, slots, or containers. -/
def agentEmpty : AgentState :=
  { agentID := "agent0", devices := [], label := "", resourcePoolName := "default",
    enabled := true, draining := false, uuid := "u-0", maxZeroSlotContainers := 2,
    slotStates := [], containerAllocation := [], containerState := [] }

/-- An enabled agent with one free device and its enabled slot. -/
def agentFreeSlot : AgentState :=
  { agentID := "agent1", devices := [(dev1, none)], label := "", resourcePoolName := "default",
    enabled := true, draining := false, uuid := "u-1", maxZeroSlotContainers := 2,
    slotStates := [(1, ⟨dev1, onFlags, none⟩)], containerAllocation := [], containerState := [] }

/-- A disabled (not draining) agent that still has a free device entry. -/
def agentDisabledFree : AgentState :=
  { agentID := "agent2", devices := [(dev1, none)], label := "", resourcePoolName := "default",
    enabled := false, draining := false, uuid := "u-2", maxZeroSlotContainers := 2,
    slotStates := [(1, ⟨dev1, ⟨true, false, true, false⟩, none⟩)],
    containerAllocation := [], containerState := [] }

/-- An enabled agent with two free devices and two enabled slots. -/
def agentTwoSlots : AgentState :=
  { agentID := "agent3", devices := [(dev1, none), (dev2, none)], label := "",
    resourcePoolName := "default", enabled := true, draining := false, uuid := "u-3",
    maxZeroSlotContainers := 2,
    slotStates := [(1, ⟨dev1, onFlags, none⟩), (2, ⟨dev2, onFlags, none⟩)],
    containerAllocation := [], containerState := [] }

/-- A container that targets both `dev1` (which has a slot on
`agentFreeSlot`) and `dev2` (which has none). -/
def contTwoDevs : Container := ⟨"c2", "RUNNING", [dev1, dev2]⟩

/-- A container targeting the two valid slots of `agentTwoSlots`. -/
def contW2 : Container := ⟨"w2", "RUNNING", [dev1, dev2]⟩

/-- An agent whose single slot is user-disabled (not draining), still
materialized, and bound to the running container `c6` owned by actor 9. -/
def agentSlotDisabled : AgentState :=
  { agentID := "agent4", devices := [(dev1, some "c6")], label := "",
    resourcePoolName := "default", enabled := true, draining := false, uuid := "u-4",
    maxZeroSlotContainers := 2,
    slotStates := [(1, ⟨dev1, ⟨true, true, false, false⟩, some "c6"⟩)],
    containerAllocation := [("c6", 9)],
    containerState := [("c6", ⟨"c6", "RUNNING", [dev1]⟩)] }

/-- An agent on which container `c8` already owns `dev1` while `dev2` is
free. -/
def agentPreOwned : AgentState :=
  { agentID := "agent5", devices := [(dev1, some "c8"), (dev2, none)], label := "",
    resourcePoolName := "default", enabled := true, draining := false, uuid := "u-5",
    maxZeroSlotContainers := 2,
    slotStates := [(1, ⟨dev1, onFlags, some "c8"⟩), (2, ⟨dev2, onFlags, none⟩)],
    containerAllocation := [],
    containerState := [("c8", ⟨"c8", "", [dev1]⟩)] }

/-- An enabled agent whose single slot has been user-disabled; the per-slot
`userEnabled = false` is what the round-trip law must preserve. -/
def agentSlotUserOff : AgentState :=
  { agentID := "agent6", devices := [(dev1, none)], label := "",
    resourcePoolName := "default", enabled := true, draining := false, uuid := "u-6",
    maxZeroSlotContainers := 2,
    slotStates := [(1, ⟨dev1, ⟨true, true, false, false⟩, none⟩)],
    containerAllocation := [], containerState := [] }

/-! Association-list lemmas. -/

theorem alookup_aset_self [DecidableEq α] (l : List (α × β)) (k : α) (v : β) :
    alookup (aset l k v) k = some v := by
  induction l with
  | nil => simp [aset, alookup]
  | cons p rest ih =>
    by_cases h : p.1 = k
    · simp [aset, h, alookup]
    · simp [aset, h, alookup, ih]

theorem alookup_aset_ne [DecidableEq α] (l : List (α × β)) {k k' : α} (v : β) (h : k' ≠ k) :
    alookup (aset l k v) k' = alookup l k' := by
  induction l with
  | nil => simp [aset, alookup, Ne.symm h]
  | cons p rest ih =>
    by_cases hp : p.1 = k
    · have hpk' : p.1 ≠ k' := fun hh => h (hh ▸ hp)
      simp [aset, hp, alookup, Ne.symm h, hpk']
    · simp [aset, hp, alookup, ih]

theorem alookup_mem [DecidableEq α] {l : List (α × β)} {k : α} {v : β}
    (h : alookup l k = some v) : (k, v) ∈ l := by
  induction l with
  | nil => simp [alookup] at h
  | cons p rest ih =>
    obtain ⟨p1, p2⟩ := p
    by_cases hp : p1 = k
    · subst hp
      simp [alookup] at h
      simp [h]
    · simp [alookup, hp] at h
      exact List.mem_cons_of_mem _ (ih h)

theorem alookup_of_mem [DecidableEq α] {l : List (α × β)} (hn : keysNodup l)
    {k : α} {v : β} (h : (k, v) ∈ l) : alookup l k = some v := by
  induction l with
  | nil => simp at h
  | cons p rest ih =>
    obtain ⟨p1, p2⟩ := p
    rw [keysNodup, List.map_cons, List.nodup_cons] at hn
    rcases List.mem_cons.mp h with heq | hmem
    · cases heq
      simp [alookup]
    · have hne : p1 ≠ k := by
        intro he
        subst he
        exact hn.1 (List.mem_map.mpr ⟨(p1, v), hmem, rfl⟩)
      simp [alookup, hne]
      exact ih hn.2 hmem

theorem alookup_mapVals [DecidableEq α] (g : β → β) (l : List (α × β)) (k : α) :
    alookup (mapVals g l) k = (alookup l k).map g := by
  induction l with
  | nil => simp [mapVals, alookup]
  | cons p rest ih =>
    by_cases hp : p.1 = k
    · simp [mapVals, alookup, hp]
    · simp only [mapVals, List.map_cons] at ih ⊢
      simp [alookup, hp, ih]

theorem alookup_filter_key [DecidableEq α] (l : List (α × β)) (p : α → Bool) (k : α) :
    alookup (l.filter (fun q => p q.1)) k = if p k then alookup l k else none := by
  induction l with
  | nil => simp [alookup]
  | cons q rest ih =>
    by_cases hq : q.1 = k
    · subst hq
      cases hpk : p q.1 <;> simp [List.filter_cons, hpk, alookup, ih]
    · cases hpq : p q.1 <;> simp [List.filter_cons, hpq, alookup, hq, ih]

theorem alookup_adel [DecidableEq α] (l : List (α × β)) (k k' : α) :
    alookup (adel l k) k' = if k' = k then none else alookup l k' := by
  induction l with
  | nil => simp [adel, alookup]
  | cons q rest ih =>
    by_cases hq : q.1 = k
    · by_cases hk : k' = k
      · subst hk
        simp [adel, hq, ih]
      · have hq' : ¬q.1 = k' := by rw [hq]; exact fun hh => hk hh.symm
        have hkk : ¬k = k' := fun hh => hk hh.symm
        simp [adel, hq, alookup, hq', ih, hk, hkk]
    · by_cases hqk' : q.1 = k'
      · have hk : ¬k' = k := fun hh => hq (by rw [hqk', hh])
        simp [adel, hq, alookup, hqk', hk]
      · simp [adel, hq, alookup, hqk', ih]

theorem alookup_supd [DecidableEq α] (l : List (α × β)) (k i : α) (f : β → β) :
    alookup (supd l k f) i = if i = k then (alookup l i).map f else alookup l i := by
  induction l with
  | nil => simp [supd, alookup]
  | cons p rest ih =>
    have hstep : supd (p :: rest) k f =
        (if p.1 = k then (p.1, f p.2) else p) :: supd rest k f := by
      simp [supd]
    rw [hstep]
    by_cases hpk : p.1 = k
    · rw [if_pos hpk]
      by_cases hpi : p.1 = i
      · have hik : i = k := hpi ▸ hpk
        simp [alookup, hpi, hik]
      · have hik : ¬i = k := fun hh => hpi (by rw [hpk, ← hh])
        simp [alookup, hpi, hik, ih]
    · rw [if_neg hpk]
      by_cases hpi : p.1 = i
      · have hik : ¬i = k := fun hh => hpk (by rw [hpi, hh])
        simp [alookup, hpi, hik]
      · simp [alookup, hpi, ih]

theorem alookup_foldl_aset [DecidableEq α] (ds : List α) (v : β) (m : List (α × β)) (k : α) :
    alookup (ds.foldl (fun acc d => aset acc d v) m) k =
      if k ∈ ds then some v else alookup m k := by
  induction ds generalizing m with
  | nil => simp
  | cons d ds ih =>
    rw [List.foldl_cons, ih]
    by_cases hd : k ∈ ds
    · simp [hd, List.mem_cons]
    · by_cases hk : k = d
      · subst hk
        simp [List.mem_cons, hd, alookup_aset_self]
      · simp [List.mem_cons, hd, hk, alookup_aset_ne _ v hk]

theorem map_eq_self_of {l : List α} {f : α → α} (h : ∀ x ∈ l, f x = x) : l.map f = l := by
  induction l with
  | nil => rfl
  | cons x xs ih => simp [h x (List.mem_cons_self x xs), ih (fun y hy => h y (List.mem_cons_of_mem x hy))]

theorem filter_eq_self_of {l : List α} {p : α → Bool} (h : ∀ x ∈ l, p x = true) :
    l.filter p = l := by
  induction l with
  | nil => rfl
  | cons x xs ih =>
    simp [List.filter_cons, h x (List.mem_cons_self x xs),
      ih (fun y hy => h y (List.mem_cons_of_mem x hy))]

theorem foldl_eq_init {l : List α} {g : β → α → β} (h : ∀ b, ∀ x ∈ l, g b x = b) (init : β) :
    l.foldl g init = init := by
  induction l generalizing init with
  | nil => rfl
  | cons x xs ih =>
    rw [List.foldl_cons, h init x (List.mem_cons_self x xs)]
    exact ih (fun b y hy => h b y (List.mem_cons_of_mem x hy)) init

/-! The free-device pool and the collecting loop of `AllocateFreeDevices`. -/

theorem freeList_cons_some {p : Device × Option CID} {rest : List (Device × Option CID)}
    {x : CID} (h : p.2 = some x) : freeList (p :: rest) = freeList rest := by
  simp [freeList, List.filter_cons, h]

theorem freeList_cons_none {p : Device × Option CID} {rest : List (Device × Option CID)}
    (h : p.2 = none) : freeList (p :: rest) = p.1 :: freeList rest := by
  simp [freeList, List.filter_cons, h]

theorem collectFreeAux_eq (slots : Int) (l : List (Device × Option CID)) :
    ∀ acc : List Device, (acc.length : Int) < slots →
      collectFreeAux slots acc l = acc ++ (freeList l).take (slots - acc.length).toNat := by
  induction l with
  | nil => intro acc _; simp [collectFreeAux, freeList]
  | cons p rest ih =>
    intro acc hacc
    cases h2 : p.2 with
    | some c =>
      rw [collectFreeAux, h2]
      rw [if_neg (by omega : ¬((acc.length : Int) = slots))]
      rw [ih acc hacc, freeList_cons_some h2]
    | none =>
      rw [collectFreeAux, h2]
      by_cases hbrk : (((acc ++ [p.1]).length : Nat) : Int) = slots
      · rw [if_pos hbrk]
        have hlen : ((acc.length : Nat) : Int) + 1 = slots := by
          simpa [List.length_append] using hbrk
        have hone : (slots - (acc.length : Int)).toNat = 0 + 1 := by omega
        rw [freeList_cons_none h2, hone, List.take_succ_cons, List.take_zero]
      · rw [if_neg hbrk]
        have hacc2 : (((acc ++ [p.1]).length : Nat) : Int) < slots := by
          simp only [List.length_append, List.length_cons, List.length_nil] at hbrk ⊢
          omega
        rw [ih (acc ++ [p.1]) hacc2, freeList_cons_none h2]
        have harg : (slots - ((acc ++ [p.1]).length : Int)).toNat + 1 =
            (slots - (acc.length : Int)).toNat := by
          simp only [List.length_append, List.length_cons, List.length_nil]
          omega
        rw [← harg, List.take_succ_cons, List.append_assoc, List.singleton_append]

theorem freeList_sublist_keys (l : List (Device × Option CID)) :
    (freeList l).Sublist (l.map Prod.fst) :=
  List.Sublist.map Prod.fst (List.filter_sublist l)

theorem freeList_nodup {l : List (Device × Option CID)} (h : keysNodup l) :
    (freeList l).Nodup :=
  h.sublist (freeList_sublist_keys l)

theorem mem_freeList {l : List (Device × Option CID)} {d : Device} (h : d ∈ freeList l) :
    (d, none) ∈ l := by
  rw [freeList] at h
  obtain ⟨p, hp, hfst⟩ := List.mem_map.mp h
  obtain ⟨hpl, hnone⟩ := List.mem_filter.mp hp
  have : p.2 = none := by simpa using hnone
  have hpd : p = (d, none) := by
    obtain ⟨a, b⟩ := p
    simp only at hfst this
    rw [hfst, this]
  exact hpd ▸ hpl

theorem alookup_of_mem_freeList {l : List (Device × Option CID)} (hn : keysNodup l)
    {d : Device} (h : d ∈ freeList l) : alookup l d = some none :=
  alookup_of_mem hn (mem_freeList h)

theorem allocateFreeDevices_pos (a : AgentState) (k : Int) (cid : CID) (hk : 0 < k) :
    allocateFreeDevices a k cid =
      (if (((freeList a.devices).take k.toNat).length : Int) = k then
        ({ a with
            devices := ((freeList a.devices).take k.toNat).foldl
              (fun m d => aset m d (some cid)) a.devices,
            containerState := aset (aset a.containerState cid ⟨cid, "", []⟩) cid
              ⟨cid, "", (freeList a.devices).take k.toNat⟩ },
          .ok ((freeList a.devices).take k.toNat))
      else
        ({ a with containerState := aset a.containerState cid ⟨cid, "", []⟩ },
          .error "not enough devices")) := by
  have hcoll : collectFreeAux k [] a.devices = (freeList a.devices).take k.toNat := by
    simpa using collectFreeAux_eq k a.devices [] (by simpa using hk)
  simp only [allocateFreeDevices, hcoll]
  rw [if_neg (by omega : ¬k = 0), ite_not]

/-! Claim theorems. -/

/-- C7: NumSlots returns NumUsedSlots when draining is true, 0 when draining
is false and enabled is false, and the total device count otherwise;
NumEmptySlots returns 0 when draining or not enabled, and
NumSlots - NumUsedSlots otherwise. -/
theorem c7_capacity_queries (a : AgentState) :
    (a.draining = true → numSlots a = numUsedSlots a) ∧
    (a.draining = false → a.enabled = false → numSlots a = 0) ∧
    (a.draining = false → a.enabled = true → numSlots a = (a.devices.length : Int)) ∧
    (a.draining = true ∨ a.enabled = false → numEmptySlots a = 0) ∧
    (a.draining = false → a.enabled = true →
      numEmptySlots a = numSlots a - numUsedSlots a) := by
  refine ⟨fun h => by simp [numSlots, h], fun h1 h2 => by simp [numSlots, h1, h2],
    fun h1 h2 => by simp [numSlots, h1, h2], fun h => ?_,
    fun h1 h2 => by simp [numEmptySlots, h1, h2]⟩
  rcases h with h | h <;> simp [numEmptySlots, h]

/-- Witness for C7 at a concrete enabled, non-draining agent. -/
theorem c7_witness :
    numEmptySlots agentFreeSlot = numSlots agentFreeSlot - numUsedSlots agentFreeSlot :=
  (c7_capacity_queries agentFreeSlot).2.2.2.2 rfl rfl

/-- C9: patching a slot id that is not in the slot map returns a not-found
error and leaves the agent state (and the signal stream) untouched. -/
theorem c9_patch_missing_slot (a : AgentState) (msg : PatchSlotState)
    (h : alookup a.slotStates msg.id = none) :
    patchSlotState a msg =
      (a, [], .error ("bad updateSlotDeviceView on device: " ++ toString msg.id ++
        " (" ++ a.agentID ++ "): not found")) := by
  simp [patchSlotState, h]

/-- Witness for C9: patching slot 99, which `agentFreeSlot` does not have. -/
theorem c9_witness :
    patchSlotState agentFreeSlot ⟨99, none, none⟩ =
      (agentFreeSlot, [], .error ("bad updateSlotDeviceView on device: " ++
        toString (99 : Int) ++ " (" ++ agentFreeSlot.agentID ++ "): not found")) :=
  c9_patch_missing_slot agentFreeSlot ⟨99, none, none⟩ (by decide)

/-- C10: AllocateFreeDevices(0, C) always succeeds with an empty device
list, registers C in container state as a zero-slot container (empty device
list), and touches nothing else — no enabled/draining/ceiling check. -/
theorem c10_zero_slot_allocate (a : AgentState) (cid : CID) :
    allocateFreeDevices a 0 cid =
      ({ a with containerState := aset a.containerState cid ⟨cid, "", []⟩ }, .ok []) ∧
    alookup (allocateFreeDevices a 0 cid).1.containerState cid = some ⟨cid, "", []⟩ ∧
    (allocateFreeDevices a 0 cid).1.devices = a.devices ∧
    (allocateFreeDevices a 0 cid).1.enabled = a.enabled ∧
    (allocateFreeDevices a 0 cid).1.draining = a.draining ∧
    (allocateFreeDevices a 0 cid).1.maxZeroSlotContainers = a.maxZeroSlotContainers := by
  refine ⟨by simp [allocateFreeDevices], ?_, by simp [allocateFreeDevices],
    by simp [allocateFreeDevices], by simp [allocateFreeDevices],
    by simp [allocateFreeDevices]⟩
  simp [allocateFreeDevices, alookup_aset_self]

/-- C6: a materialized, bound slot that is not effectively enabled and not
draining is removed from Devices, unmaterialized, and exactly one kill
signal with reason "slot disabled" goes to the owner; with draining set,
nothing changes and no signal is emitted. -/
theorem c6_slot_disable_eviction (a : AgentState) (i : Int) (s : Slot) (c : CID)
    (hs : alookup a.slotStates i = some s)
    (hen : s.enabled.enabled = false)
    (hc : s.containerID = some c) :
    (s.enabled.draining = false → s.enabled.deviceAdded = true →
      updateSlotDeviceView a i =
        ({ a with
            slotStates := aset a.slotStates i
              { s with enabled := { s.enabled with deviceAdded := false } },
            devices := adel a.devices s.device },
          [⟨alookup a.containerAllocation c, "kill", "slot disabled"⟩]) ∧
      alookup (updateSlotDeviceView a i).1.devices s.device = none) ∧
    (s.enabled.draining = true → updateSlotDeviceView a i = (a, [])) := by
  constructor
  · intro hdr hda
    have heq : updateSlotDeviceView a i =
        ({ a with
            slotStates := aset a.slotStates i
              { s with enabled := { s.enabled with deviceAdded := false } },
            devices := adel a.devices s.device },
          [⟨alookup a.containerAllocation c, "kill", "slot disabled"⟩]) := by
      simp [updateSlotDeviceView, hs, hen, hdr, hda, hc]
    refine ⟨heq, ?_⟩
    rw [heq]
    simp [alookup_adel]
  · intro hdr
    simp [updateSlotDeviceView, hs, hen, hdr, hc]

/-- C1 (amended): with k > 0, AllocateFreeDevices(k, C) succeeds exactly
when at least k entries of Devices are unowned — regardless of the
enabled/draining flags — returning k distinct previously-unowned devices
that become owned by C; otherwise it errors with "not enough devices" and
leaves device ownership unchanged; in both cases C is registered in
container state. -/
theorem c1_allocate_free_devices (a : AgentState) (k : Int) (cid : CID)
    (hnd : keysNodup a.devices) (hk : 0 < k) :
    (k ≤ ((freeList a.devices).length : Int) →
      ∃ ds, (allocateFreeDevices a k cid).2 = .ok ds ∧ (ds.length : Int) = k ∧ ds.Nodup ∧
        (∀ d ∈ ds, alookup a.devices d = some none) ∧
        (∀ d ∈ ds, alookup (allocateFreeDevices a k cid).1.devices d = some (some cid)) ∧
        (∀ d, d ∉ ds → alookup (allocateFreeDevices a k cid).1.devices d =
          alookup a.devices d)) ∧
    (((freeList a.devices).length : Int) < k →
      (allocateFreeDevices a k cid).2 = .error "not enough devices" ∧
      (allocateFreeDevices a k cid).1.devices = a.devices) ∧
    (∃ rest, alookup (allocateFreeDevices a k cid).1.containerState cid =
      some ⟨cid, "", rest⟩) := by
  rw [allocateFreeDevices_pos a k cid hk]
  set ds := (freeList a.devices).take k.toNat with hds
  by_cases hlen : ((ds.length : Nat) : Int) = k
  · rw [if_pos hlen]
    refine ⟨?_, ?_, ?_⟩
    · intro _
      refine ⟨ds, rfl, hlen, ?_, ?_, ?_, ?_⟩
      · exact (freeList_nodup hnd).sublist (List.take_sublist _ _)
      · intro d hd
        exact alookup_of_mem_freeList hnd (List.take_subset _ _ hd)
      · intro d hd
        show alookup (ds.foldl (fun m d => aset m d (some cid)) a.devices) d = some (some cid)
        rw [alookup_foldl_aset]
        simp [hd]
      · intro d hd
        show alookup (ds.foldl (fun m d => aset m d (some cid)) a.devices) d =
          alookup a.devices d
        rw [alookup_foldl_aset]
        simp [hd]
    · intro hlt
      exfalso
      have h1 : ds.length ≤ (freeList a.devices).length := by
        rw [hds]
        exact (List.take_sublist _ _).length_le
      omega
    · exact ⟨ds, by simp [alookup_aset_self]⟩
  · rw [if_neg hlen]
    refine ⟨?_, fun _ => ⟨rfl, rfl⟩, ⟨[], by simp [alookup_aset_self]⟩⟩
    intro hge
    exfalso
    have h2 : ds.length = k.toNat := by
      rw [hds]
      exact List.length_take_of_le (by omega)
    omega

/-- Witness for C1 on a one-free-device agent with k = 1. -/
theorem c1_witness :
    keysNodup agentFreeSlot.devices ∧
    (∃ rest, alookup (allocateFreeDevices agentFreeSlot 1 "w1").1.containerState "w1" =
      some ⟨"w1", "", rest⟩) :=
  ⟨by decide, (c1_allocate_free_devices agentFreeSlot 1 "w1" (by decide) (by decide)).2.2⟩

/-- C1 counterexample: on a disabled (not draining) agent with one free
device entry, NumEmptySlots = 0 < 1, yet AllocateFreeDevices(1, C)
succeeds — and even on failure runs the claim would forbid, container
state is mutated: the claim's error branch ("returns the error and performs
no state mutation") is false on the code. -/
theorem c1_counterexample :
    numEmptySlots agentDisabledFree = 0 ∧
    okValue (allocateFreeDevices agentDisabledFree 1 "c1x").2 = some [dev1] ∧
    alookup (allocateFreeDevices agentDisabledFree 1 "c1x").1.devices dev1 =
      some (some "c1x") ∧
    (alookup (allocateFreeDevices agentDisabledFree 1 "c1x").1.containerState
      "c1x").isSome = true := by
  decide

/-- C8 (amended): when AllocateFreeDevices(k, C) succeeds on an agent on
which no device was already owned by C, a following DeallocateContainer(C)
restores the ownership of every device to its pre-allocation value and
removes C from container state.  (Without that proviso the claim fails:
devices already owned by C are released too, see the counterexample.) -/
theorem c8_allocate_deallocate (a : AgentState) (k : Int) (cid : CID)
    (hnd : keysNodup a.devices) (hk : 0 < k)
    (hge : k ≤ ((freeList a.devices).length : Int))
    (hpre : ∀ p ∈ a.devices, p.2 ≠ some cid) :
    (∃ ds, (allocateFreeDevices a k cid).2 = .ok ds ∧ (ds.length : Int) = k) ∧
    (∀ d, alookup (deallocateContainer (allocateFreeDevices a k cid).1 cid).devices d =
      alookup a.devices d) ∧
    alookup (deallocateContainer (allocateFreeDevices a k cid).1 cid).containerState cid =
      none := by
  rw [allocateFreeDevices_pos a k cid hk]
  set ds := (freeList a.devices).take k.toNat with hds
  have hlen : ((ds.length : Nat) : Int) = k := by
    have h2 : ds.length = k.toNat := by
      rw [hds]
      exact List.length_take_of_le (by omega)
    omega
  rw [if_pos hlen]
  refine ⟨⟨ds, rfl, hlen⟩, ?_, ?_⟩
  · intro d
    show alookup (mapVals (fun v => if v = some cid then none else v)
        (ds.foldl (fun m d => aset m d (some cid)) a.devices)) d = alookup a.devices d
    rw [alookup_mapVals, alookup_foldl_aset]
    by_cases hd : d ∈ ds
    · rw [if_pos hd]
      rw [hds] at hd
      have hfree : alookup a.devices d = some none :=
        alookup_of_mem_freeList hnd (List.take_subset _ _ hd)
      simp [hfree]
    · rw [if_neg hd]
      cases halk : alookup a.devices d with
      | none => simp
      | some v =>
        have hv : v ≠ some cid := hpre (d, v) (alookup_mem halk)
        simp [hv]
  · show alookup (adel (aset (aset a.containerState cid ⟨cid, "", []⟩) cid ⟨cid, "", ds⟩)
        cid) cid = none
    rw [alookup_adel]
    simp

/-- Witness for C8 on a one-free-device agent with k = 1. -/
theorem c8_witness :
    alookup (deallocateContainer
      (allocateFreeDevices agentFreeSlot 1 "w8").1 "w8").containerState "w8" = none :=
  (c8_allocate_deallocate agentFreeSlot 1 "w8"
    (by decide) (by decide) (by decide) (by decide)).2.2

/-- C8 counterexample: if a device (`dev1`) is already owned by C before
the allocation, DeallocateContainer(C) clears it as well, so device
ownership is not restored to its pre-allocation value as the claim
states. -/
theorem c8_counterexample :
    alookup agentPreOwned.devices dev1 = some (some "c8") ∧
    okValue (allocateFreeDevices agentPreOwned 1 "c8").2 = some [dev2] ∧
    alookup (deallocateContainer
      (allocateFreeDevices agentPreOwned 1 "c8").1 "c8").devices dev1 = some none := by
  decide

/-- The successful run of the `startContainer` device loop: with distinct
device ids that all pass validation, the loop binds every slot, registers
the container (when there is at least one device), and touches nothing
else. -/
theorem startLoop_ok (c : Container) :
    ∀ (ds : List Device) (a : AgentState),
      (ds.map (fun d => d.id)).Nodup →
      (∀ d ∈ ds, validTargetB a d = true) →
      ∃ a1, startLoop c ds a = (a1, none) ∧
        (∀ d ∈ ds, (alookup a1.slotStates d.id).map (fun s => s.containerID) =
          some (some c.id)) ∧
        (∀ i, i ∉ ds.map (fun d => d.id) →
          alookup a1.slotStates i = alookup a.slotStates i) ∧
        (ds = [] → a1 = a) ∧
        (ds ≠ [] → alookup a1.containerState c.id = some c) ∧
        a1.containerAllocation = a.containerAllocation ∧
        a1.devices = a.devices := by
  intro ds
  induction ds with
  | nil =>
    intro a _ _
    exact ⟨a, rfl, by simp, fun i _ => rfl, fun _ => rfl, fun h => absurd rfl h, rfl, rfl⟩
  | cons d ds ih =>
    intro a hnd hval
    rw [List.map_cons, List.nodup_cons] at hnd
    have hv := hval d (List.mem_cons_self d ds)
    rw [validTargetB] at hv
    cases hlk : alookup a.slotStates d.id with
    | none => rw [hlk] at hv; simp [Option.any] at hv
    | some s =>
      rw [hlk] at hv
      simp only [Option.any, Bool.and_eq_true, Option.isNone_iff_eq_none] at hv
      obtain ⟨hen, hcid⟩ := hv
      have hrec : startLoop c (d :: ds) a = startLoop c ds
          { a with
              slotStates := aset a.slotStates d.id { s with containerID := some c.id },
              containerState := aset a.containerState c.id c } := by
        simp [startLoop, hlk, hen, hcid]
      have hval2 : ∀ d' ∈ ds,
          validTargetB { a with
            slotStates := aset a.slotStates d.id { s with containerID := some c.id },
            containerState := aset a.containerState c.id c } d' = true := by
        intro d' hd'
        have hne : d'.id ≠ d.id := by
          intro he
          exact hnd.1 (he ▸ List.mem_map.mpr ⟨d', hd', rfl⟩)
        rw [validTargetB]
        show (alookup (aset a.slotStates d.id { s with containerID := some c.id })
          d'.id).any (fun s => s.enabled.enabled && s.containerID.isNone) = true
        rw [alookup_aset_ne _ _ hne]
        exact hval d' (List.mem_cons_of_mem d hd')
      obtain ⟨a1, heq, hbound, hframe, hempty, hcs, hca, hdev⟩ := ih _ hnd.2 hval2
      refine ⟨a1, by rw [hrec, heq], ?_, ?_, ?_, ?_, ?_, ?_⟩
      · intro d0 hd0
        rcases List.mem_cons.mp hd0 with rfl | hd0
        · rw [hframe d0.id hnd.1]
          show (alookup (aset a.slotStates d0.id { s with containerID := some c.id })
            d0.id).map (fun s => s.containerID) = some (some c.id)
          rw [alookup_aset_self]
          rfl
        · exact hbound d0 hd0
      · intro i hi
        rw [List.map_cons, List.mem_cons] at hi
        push_neg at hi
        rw [hframe i hi.2]
        show alookup (aset a.slotStates d.id { s with containerID := some c.id }) i =
          alookup a.slotStates i
        exact alookup_aset_ne _ _ hi.1
      · intro h
        exact absurd h (List.cons_ne_nil d ds)
      · intro _
        by_cases hds0 : ds = []
        · rw [hempty hds0]
          show alookup (aset a.containerState c.id c) c.id = some c
          rw [alookup_aset_self]
        · exact hcs hds0
      · exact hca
      · exact hdev

/-- C2 (amended): startContainer validates each target device in order
(slot exists, effectively enabled, unowned); when every device passes
validation and device ids are distinct, the whole call succeeds, binds
every slot to the container, and (when at least one device is targeted)
registers the container in ContainerState and ContainerAllocation.  When a
device fails validation the call returns a descriptive error, but the
semantics are not all-or-nothing: devices validated before the failure stay
bound and the container stays registered (see the counterexample). -/
theorem c2_start_container (a : AgentState) (c : Container) (t : Nat)
    (hnd : (c.devices.map (fun d => d.id)).Nodup)
    (hvalid : ∀ d ∈ c.devices, validTargetB a d = true)
    (hne : c.devices ≠ []) :
    (startContainer a c t).2 = .ok () ∧
    (∀ d ∈ c.devices, (alookup (startContainer a c t).1.slotStates d.id).map
      (fun s => s.containerID) = some (some c.id)) ∧
    alookup (startContainer a c t).1.containerState c.id = some c ∧
    alookup (startContainer a c t).1.containerAllocation c.id = some t := by
  obtain ⟨a1, heq, hbound, hframe, hempty, hcs, hca, hdev⟩ :=
    startLoop_ok c c.devices a hnd hvalid
  have hsc : startContainer a c t =
      ({ a1 with containerAllocation := aset a1.containerAllocation c.id t }, .ok ()) := by
    simp only [startContainer, heq]
  rw [hsc]
  refine ⟨rfl, ?_, hcs hne, ?_⟩
  · intro d hd
    exact hbound d hd
  · show alookup (aset a1.containerAllocation c.id t) c.id = some t
    rw [alookup_aset_self]

/-- Witness for C2: a two-device container starting on an agent with two
valid slots. -/
theorem c2_witness :
    (startContainer agentTwoSlots contW2 5).2 = .ok () ∧
    alookup (startContainer agentTwoSlots contW2 5).1.containerAllocation "w2" = some 5 :=
  ⟨(c2_start_container agentTwoSlots contW2 5 (by decide) (by decide) (by decide)).1,
    (c2_start_container agentTwoSlots contW2 5 (by decide) (by decide) (by decide)).2.2.2⟩

/-- C2 counterexample: `contTwoDevs` targets `dev1` (valid slot on
`agentFreeSlot`) and `dev2` (no slot).  The call errors, yet slot 1 is
left bound to the container and the container is registered in container
state — the claim's all-or-nothing error semantics are false on the
code. -/
theorem c2_counterexample :
    okValue (startContainer agentFreeSlot contTwoDevs 7).2 = none ∧
    (alookup (startContainer agentFreeSlot contTwoDevs 7).1.slotStates 1).map
      (fun s => s.containerID) = some (some "c2") ∧
    (alookup (startContainer agentFreeSlot contTwoDevs 7).1.containerState
      "c2").isSome = true := by
  decide

theorem any_eq_false_iff {l : List α} {p : α → Bool} :
    l.any p = false ↔ ∀ x ∈ l, p x = false := by
  induction l with
  | nil => simp
  | cons x xs ih => simp [List.any_cons, Bool.or_eq_false_iff, List.forall_mem_cons, ih]

/-- The unfolded form of `clearUnlessRecovered`. -/
theorem clearUnlessRecovered_eq (a : AgentState) (recovered : List CID) :
    clearUnlessRecovered a recovered =
      ({ a with
          devices := mapVals
            (fun v => if v.any (fun c => !recovered.contains c) then none else v) a.devices,
          slotStates := mapVals
            (fun s => if s.containerID.any (fun c => !recovered.contains c) then
              { s with containerID := none } else s)
            (a.devices.foldl
              (fun sl p => if p.2.any (fun c => !recovered.contains c) then
                supd sl p.1.id (fun s => { s with containerID := none }) else sl)
              a.slotStates),
          containerState := a.containerState.filter (fun q => recovered.contains q.1),
          containerAllocation :=
            a.containerAllocation.filter (fun q => recovered.contains q.1) },
        if (a.devices.any (fun p => p.2.any (fun c => !recovered.contains c)) ||
            (a.devices.foldl
              (fun sl p => if p.2.any (fun c => !recovered.contains c) then
                supd sl p.1.id (fun s => { s with containerID := none }) else sl)
              a.slotStates).any
              (fun q => q.2.containerID.any (fun c => !recovered.contains c)) ||
            a.containerState.any (fun q => !recovered.contains q.1) ||
            a.containerAllocation.any (fun q => !recovered.contains q.1)) then 1 else 0) :=
  rfl

/-- C5 (amended): clearUnlessRecovered(S) leaves no reference — device
owner, slot binding, container state, container allocation — to any id
outside S, and persists exactly once if any change occurred (a reference
outside S existed), zero times otherwise; in particular with the empty set
it clears everything, persisting once when the agent held any reference
and zero times when it held none. -/
theorem c5_clear_unless_recovered (a : AgentState) (recovered : List CID) :
    (∀ p ∈ (clearUnlessRecovered a recovered).1.devices, ∀ c : CID, p.2 = some c →
      recovered.contains c = true) ∧
    (∀ q ∈ (clearUnlessRecovered a recovered).1.slotStates, ∀ c : CID,
      q.2.containerID = some c → recovered.contains c = true) ∧
    (∀ q ∈ (clearUnlessRecovered a recovered).1.containerState,
      recovered.contains q.1 = true) ∧
    (∀ q ∈ (clearUnlessRecovered a recovered).1.containerAllocation,
      recovered.contains q.1 = true) ∧
    (clearUnlessRecovered a recovered).2 =
      (if hasUnrecoveredRef a recovered then 1 else 0) ∧
    (hasUnrecoveredRef a recovered = false → (clearUnlessRecovered a recovered).1 = a) := by
  rw [clearUnlessRecovered_eq]
  refine ⟨?_, ?_, ?_, ?_, ?_, ?_⟩
  · dsimp only
    intro p hp c hpc
    rw [mapVals] at hp
    obtain ⟨q, hq, rfl⟩ := List.mem_map.mp hp
    dsimp only at hpc
    split_ifs at hpc with hcond
    rw [hpc] at hcond
    simpa [Option.any] using hcond
  · dsimp only
    intro q hq c hqc
    rw [mapVals] at hq
    obtain ⟨r, hr, rfl⟩ := List.mem_map.mp hq
    dsimp only at hqc
    split_ifs at hqc with hcond
    rw [hqc] at hcond
    simpa [Option.any] using hcond
  · dsimp only
    intro q hq
    exact (List.mem_filter.mp hq).2
  · dsimp only
    intro q hq
    exact (List.mem_filter.mp hq).2
  · dsimp only
    by_cases hu1 : a.devices.any (fun p => p.2.any (fun c => !recovered.contains c)) = true
    · simp only [hu1, hasUnrecoveredRef]
      simp
    · have hu1f : a.devices.any (fun p => p.2.any (fun c => !recovered.contains c)) = false :=
        Bool.eq_false_iff.mpr hu1
      have h1m := any_eq_false_iff.mp hu1f
      have hslots1 : a.devices.foldl
          (fun sl p => if p.2.any (fun c => !recovered.contains c) then
            supd sl p.1.id (fun s => { s with containerID := none }) else sl)
          a.slotStates = a.slotStates :=
        foldl_eq_init (fun b p hp => by rw [h1m p hp]; simp) _
      rw [hslots1]
      simp only [hasUnrecoveredRef, hu1f]
  · dsimp only
    intro h
    simp only [hasUnrecoveredRef, Bool.or_eq_false_iff] at h
    obtain ⟨⟨⟨h1, h2⟩, h3⟩, h4⟩ := h
    have h1m := any_eq_false_iff.mp h1
    have h2m := any_eq_false_iff.mp h2
    have h3m := any_eq_false_iff.mp h3
    have h4m := any_eq_false_iff.mp h4
    have hslots1 : a.devices.foldl
        (fun sl p => if p.2.any (fun c => !recovered.contains c) then
          supd sl p.1.id (fun s => { s with containerID := none }) else sl)
        a.slotStates = a.slotStates :=
      foldl_eq_init (fun b p hp => by rw [h1m p hp]; simp) _
    have hdev : mapVals
        (fun v => if v.any (fun c => !recovered.contains c) then none else v)
        a.devices = a.devices := by
      rw [mapVals]
      apply map_eq_self_of
      intro p hp
      rw [h1m p hp]
      simp
    have hslots2 : mapVals
        (fun s => if s.containerID.any (fun c => !recovered.contains c) then
          { s with containerID := none } else s)
        a.slotStates = a.slotStates := by
      rw [mapVals]
      apply map_eq_self_of
      intro q hq
      rw [h2m q hq]
      simp
    have hcs : a.containerState.filter (fun q => recovered.contains q.1) =
        a.containerState := by
      apply filter_eq_self_of
      intro q hq
      simpa using h3m q hq
    have hca : a.containerAllocation.filter (fun q => recovered.contains q.1) =
        a.containerAllocation := by
      apply filter_eq_self_of
      intro q hq
      simpa using h4m q hq
    rw [hslots1, hslots2, hdev, hcs, hca]

/-- Witness for C5: on an agent holding container references, with an empty
recovered set, the persist count is exactly the changed-flag value. -/
theorem c5_witness :
    (clearUnlessRecovered agentPreOwned []).2 =
      (if hasUnrecoveredRef agentPreOwned [] then 1 else 0) :=
  (c5_clear_unless_recovered agentPreOwned []).2.2.2.2.1

/-- C5 counterexample: on an agent with no container references at all,
clearUnlessRecovered with the empty set persists zero times, not exactly
once as the claim's "in particular" clause demands. -/
theorem c5_counterexample :
    (clearUnlessRecovered agentEmpty []).1 = agentEmpty ∧
    (clearUnlessRecovered agentEmpty []).2 = 0 ∧
    ¬(clearUnlessRecovered agentEmpty []).2 = 1 := by
  decide

/-- Lookup after the first `clearUnlessRecovered` pass over `Devices`,
which clears the slot of every device whose owner was not recovered. -/
theorem alookup_foldl_supd_clear (recovered : List CID)
    (E : List (Device × Option CID)) :
    ∀ (m : List (Int × Slot)) (i : Int),
      alookup (E.foldl (fun sl p => if p.2.any (fun c => !recovered.contains c) then
        supd sl p.1.id (fun s => { s with containerID := none }) else sl) m) i =
      if E.any (fun p => p.2.any (fun c => !recovered.contains c) && decide (p.1.id = i))
      then (alookup m i).map (fun s => { s with containerID := none })
      else alookup m i := by
  induction E with
  | nil => intro m i; simp
  | cons p E ih =>
    intro m i
    rw [List.foldl_cons]
    by_cases hc : p.2.any (fun c => !recovered.contains c) = true
    · rw [if_pos hc, ih]
      by_cases hki : p.1.id = i
      · subst hki
        rw [alookup_supd]
        have hcol : ∀ x : Option Slot,
            Option.map (fun s => { s with containerID := none })
              (Option.map (fun s => { s with containerID := none }) x) =
            Option.map (fun s => { s with containerID := none }) x := by
          intro x
          cases x <;> rfl
        simp only [List.any_cons, hc, hcol]
        simp [hcol]
      · have hik : ¬i = p.1.id := fun hh => hki hh.symm
        rw [alookup_supd]
        have hdec : decide (p.1.id = i) = false := by simp [hki]
        simp only [List.any_cons, hdec, Bool.and_false, Bool.false_or]
        simp [hik]
    · rw [if_neg hc, ih]
      simp only [List.any_cons, Bool.eq_false_iff.mpr hc, Bool.false_and, Bool.false_or]

/-- C4 (amended): the claimed Devices/Slot/ContainerState ownership
invariant is preserved by DeallocateContainer and by clearUnlessRecovered,
but not by every operation: AllocateFreeDevices records device ownership
without updating the slot binding (see the counterexample), and
startContainer/containerStateChanged update slot bindings without the
Devices view. -/
theorem c4_invariant (a : AgentState) (cid : CID) (recovered : List CID)
    (hids : (a.devices.map (fun p => p.1.id)).Nodup) (hinv : Inv a) :
    Inv (deallocateContainer a cid) ∧ Inv (clearUnlessRecovered a recovered).1 := by
  constructor
  · intro d c
    dsimp only [deallocateContainer]
    rw [alookup_mapVals, alookup_adel]
    by_cases hccid : c = cid
    · subst hccid
      constructor
      · intro h
        exfalso
        obtain ⟨v, hv, hgv⟩ := Option.map_eq_some'.mp h
        split_ifs at hgv with h2
        exact h2 hgv
      · rintro ⟨h1, h2⟩
        simp at h2
    · constructor
      · intro h
        obtain ⟨v, hv, hgv⟩ := Option.map_eq_some'.mp h
        have hveq : v = some c := by
          split_ifs at hgv with h2
          exact hgv
        have hpre := (hinv d c).mp (hveq ▸ hv)
        refine ⟨hpre.1, ?_⟩
        rw [if_neg hccid]
        exact hpre.2
      · rintro ⟨h1, h2⟩
        rw [if_neg hccid] at h2
        have hdev := (hinv d c).mpr ⟨h1, h2⟩
        simp [hdev, hccid]
  · intro d c
    rw [clearUnlessRecovered_eq]
    dsimp only
    simp only [alookup_mapVals]
    rw [alookup_foldl_supd_clear recovered a.devices a.slotStates d.id]
    rw [alookup_filter_key a.containerState (fun x => recovered.contains x) c]
    by_cases hcS : recovered.contains c = true
    · have hcmem : c ∈ recovered := by simpa using hcS
      constructor
      · intro h
        obtain ⟨v, hv, hgv⟩ := Option.map_eq_some'.mp h
        have hveq : v = some c := by
          split_ifs at hgv with h2
          exact hgv
        subst hveq
        have hpre := (hinv d c).mp hv
        have hnohit : a.devices.any (fun p => p.2.any (fun c0 => !recovered.contains c0) &&
            decide (p.1.id = d.id)) = false := by
          rw [any_eq_false_iff]
          intro p hp
          by_cases hpid : p.1.id = d.id
          · have hmem : (d, some c) ∈ a.devices := alookup_mem hv
            have hpeq : p = (d, some c) :=
              List.inj_on_of_nodup_map hids hp hmem hpid
            rw [hpeq]
            simp [Option.any, hcmem]
          · simp [hpid]
        rw [hnohit]
        refine ⟨?_, ?_⟩
        · simp only [if_neg (by simp : ¬(false = true))]
          cases hs : alookup a.slotStates d.id with
          | none => rw [hs] at hpre; exact absurd hpre.1 (by simp)
          | some s =>
            rw [hs] at hpre
            have hscid : s.containerID = some c := by simpa using hpre.1
            simp [hscid, Option.any, hcmem]
        · rw [if_pos hcS]
          exact hpre.2
      · rintro ⟨h1, h2⟩
        rw [if_pos hcS] at h2
        by_cases hhit : a.devices.any (fun p => p.2.any (fun c0 => !recovered.contains c0) &&
            decide (p.1.id = d.id)) = true
        · rw [hhit] at h1
          exfalso
          simp only [if_pos rfl] at h1
          cases hs : alookup a.slotStates d.id with
          | none => rw [hs] at h1; simp at h1
          | some s =>
            rw [hs] at h1
            simp [Option.any] at h1
        · rw [Bool.eq_false_iff.mpr hhit] at h1
          simp only [if_neg (by simp : ¬(false = true))] at h1
          cases hs : alookup a.slotStates d.id with
          | none => rw [hs] at h1; simp at h1
          | some s =>
            rw [hs] at h1
            have hscid : s.containerID = some c := by
              by_cases hg : s.containerID.any (fun c0 => !recovered.contains c0) = true
              · rw [Option.map_some'] at h1
                simp only [hg, if_pos rfl] at h1
                simp at h1
              · rw [Option.map_some'] at h1
                rw [Bool.eq_false_iff.mpr hg] at h1
                simp at h1
                exact h1
            have hdev := (hinv d c).mpr ⟨by simp [hs, hscid], h2⟩
            simp [hdev, Option.any, hcmem]
    · have hcSf : recovered.contains c = false := Bool.eq_false_iff.mpr hcS
      constructor
      · intro h
        exfalso
        obtain ⟨v, hv, hgv⟩ := Option.map_eq_some'.mp h
        split_ifs at hgv with h2
        rw [hgv] at h2
        simp [Option.any] at h2
        exact absurd h2 (by simpa using hcSf)
      · rintro ⟨h1, h2⟩
        rw [if_neg (by simpa using hcSf : ¬(recovered.contains c = true))] at h2
        simp at h2

/-- Witness for C4: the invariant holds on the empty agent and is preserved
by DeallocateContainer there. -/
theorem c4_witness : Inv (deallocateContainer agentEmpty "x") :=
  (c4_invariant agentEmpty "x" [] (by decide)
    (by simp [Inv, agentEmpty, alookup])).1

/-- C4 counterexample: the invariant holds on `agentFreeSlot`, but after
AllocateFreeDevices(1, C) the device is owned by C in `Devices` while the
slot's containerID is still nil, so the invariant is not preserved by every
operation. -/
theorem c4_counterexample :
    Inv agentFreeSlot ∧ ¬Inv (allocateFreeDevices agentFreeSlot 1 "c4x").1 := by
  constructor
  · intro d c
    constructor
    · intro h
      exfalso
      rw [show agentFreeSlot.devices = [(dev1, none)] from rfl, alookup] at h
      split_ifs at h with hd
      · simp at h
      · rw [alookup] at h
        exact Option.noConfusion h
    · rintro ⟨h1, h2⟩
      simp [agentFreeSlot, alookup] at h2
  · intro hInv
    have h := (hInv dev1 "c4x").mp (by decide)
    have h2 : (alookup (allocateFreeDevices agentFreeSlot 1 "c4x").1.slotStates
        dev1.id).bind (fun s => s.containerID) = none := by decide
    rw [h2] at h
    exact Option.noConfusion h.1

/-- C3 (code bug): the round-trip law fails on the per-slot user-enabled
flag.  `agentSlotUserOff` has its only slot user-disabled and the persisted
snapshot records that (`slots.userEnabled = [false]`), but
`newAgentStateFromSnapshot` rebuilds every slot's flags from the
agent-level `UserEnabled`, so the retrieved agent's slot is user-enabled;
uuid, the top-level flags, and the container id set do round-trip. -/
theorem c3_roundtrip_bug :
    (AgentState.snapshot agentSlotUserOff).slots.map (fun sd => sd.userEnabled) =
      [false] ∧
    (match retrieveAgentStates ["default"]
        (dbUpsert [] (AgentState.snapshot agentSlotUserOff)) [] with
     | .ok ((_, st) :: _) =>
        some ((alookup st.slotStates 1).map (fun s => s.enabled.userEnabled),
          st.uuid, st.enabled, st.draining, st.containerState.map Prod.fst)
     | _ => none) =
      some (some true, agentSlotUserOff.uuid, agentSlotUserOff.enabled,
        agentSlotUserOff.draining, agentSlotUserOff.containerState.map Prod.fst) ∧
    (alookup agentSlotUserOff.slotStates 1).map (fun s => s.enabled.userEnabled) =
      some false := by
  decide

/-- Witness for C6 at a disabled, bound, materialized slot. -/
theorem c6_witness :
    alookup agentSlotDisabled.slotStates 1 =
      some ⟨dev1, ⟨true, true, false, false⟩, some "c6"⟩ ∧
    alookup (updateSlotDeviceView agentSlotDisabled 1).1.devices dev1 = none :=
  ⟨by decide,
    ((c6_slot_disable_eviction agentSlotDisabled 1
      ⟨dev1, ⟨true, true, false, false⟩, some "c6"⟩ "c6"
      (by decide) (by decide) (by decide)).1 (by decide) (by decide)).2⟩

end Agent
